import Mathlib

/-!
# QXmppPubSubManager: completion of item requests and construction of publish requests

A shallow embedding of `src/client/QXmppPubSubManager.h`.

* The continuation lambdas of `requestItem` and `requestItems` are embedded as
  state transformers over the captured `QFutureInterface`, the `QFutureWatcher`
  and a log of the decoder calls they make.
* The `publishItem` / `publishItems` / `publishPepItem` / `publishPepItems`
  templates are embedded as functions that build a request and hand it to the
  private `publishItem(QXmppPubSubIqBase &&)` / `publishItems(QXmppPubSubIqBase &&)`.

Collaborators that the header only uses (the transport, the stanza classes, the
private senders) are parameters of the embedding.
-/

namespace QXmppPubSub

/-! ## Result variants -/

/-- The variant `QXmppClient::IqResult` held by the watcher when the send future
finishes. The lambdas inspect it with `std::get_if<QDomElement>` and
`std::get_if<QXmpp::PacketState>`; `Dom` stands for `QDomElement`, `P` for
`QXmpp::PacketState`. -/
inductive IqResult (Dom P : Type) where
  | element (element : Dom)
  | packetState (error : P)
  deriving DecidableEq, Repr

/-- The variant `ItemResult<T>`, that is
`std::variant<std::optional<T>, QXmppStanza::Error, QXmpp::PacketState>`. -/
inductive ItemResult (T Err P : Type) where
  | success (item : Option T)
  | error (error : Err)
  | packetState (state : P)
  deriving DecidableEq, Repr

/-- The variant `ItemsResult<T>`, that is
`std::variant<QList<T>, QXmppStanza::Error, QXmpp::PacketState>`. -/
inductive ItemsResult (T Err P : Type) where
  | success (items : List T)
  | error (error : Err)
  | packetState (state : P)
  deriving DecidableEq, Repr

/-! ## The future interface -/

/-- What a `QFutureInterface<R>` shows to the holder of its `QFuture<R>`: the
results reported so far, oldest first, and whether it has been marked finished. -/
structure QFutureInterface (R : Type) where
  results : List R
  finished : Bool
  deriving DecidableEq, Repr

namespace QFutureInterface

/-- The interface as constructed with `QFutureInterfaceBase::Started`: running,
no result yet. -/
def started {R : Type} : QFutureInterface R :=
  { results := [], finished := false }

/-- The call `reportResult(value)`: stores one more result; Qt drops the value
when the interface is already finished. -/
def reportResult {R : Type} (f : QFutureInterface R) (value : R) : QFutureInterface R :=
  if f.finished then f else { f with results := f.results ++ [value] }

/-- The call `reportFinished()`. -/
def reportFinished {R : Type} (f : QFutureInterface R) : QFutureInterface R :=
  { f with finished := true }

end QFutureInterface

/-! ## Decoding collaborators -/

/-- The stanza-side functions the lambdas call on an inbound element. They are
declared in `QXmppPubSubIq.h` and `QXmppIq.h`, so they are parameters here.

* `isPubSubIq` is the static `QXmppPubSubIq<T>::isPubSubIq(element)`;
* `items` is `resultIq.items()` after `resultIq.parse(element)` on a fresh
  `QXmppPubSubIq<T>`;
* `error` is `iq.error()` after `iq.parse(element)` on a fresh `QXmppIq`. -/
structure PubSubIqDecoder (Dom T Err : Type) where
  isPubSubIq : Dom → Bool
  items : Dom → List T
  error : Dom → Err

/-- One call made into the stanza classes while a continuation runs. -/
inductive DecoderCall (Dom : Type) where
  | isPubSubIq (element : Dom)
  | pubSubIqParse (element : Dom)
  | iqParse (element : Dom)
  deriving DecidableEq, Repr

/-- Everything a continuation lambda touches: the captured `resultInterface`,
the calls made into the stanza classes (oldest first), and whether
`watcher->deleteLater()` has been called. -/
structure Completion (Dom R : Type) where
  resultInterface : QFutureInterface R
  decoderCalls : List (DecoderCall Dom)
  watcherDeleted : Bool
  deriving DecidableEq, Repr

namespace Completion

/-- The state when the function returns its future: interface started, nothing
decoded, watcher alive. -/
def pending {Dom R : Type} : Completion Dom R :=
  { resultInterface := QFutureInterface.started, decoderCalls := [], watcherDeleted := false }

/-- Record a call into the stanza classes. -/
def called {Dom R : Type} (s : Completion Dom R) (c : DecoderCall Dom) : Completion Dom R :=
  { s with decoderCalls := s.decoderCalls ++ [c] }

/-- The statement `resultInterface.reportResult(value)`. -/
def reportResult {Dom R : Type} (s : Completion Dom R) (value : R) : Completion Dom R :=
  { s with resultInterface := s.resultInterface.reportResult value }

/-- The statement `resultInterface.reportFinished()`. -/
def reportFinished {Dom R : Type} (s : Completion Dom R) : Completion Dom R :=
  { s with resultInterface := s.resultInterface.reportFinished }

/-- The statement `watcher->deleteLater()`. -/
def deleteLater {Dom R : Type} (s : Completion Dom R) : Completion Dom R :=
  { s with watcherDeleted := true }

end Completion

/-! ## The continuation lambdas -/

/-- The lambda connected to `QFutureWatcherBase::finished` in `requestItem`
(lines 133-156), run on the state `s` with `result = watcher->result()`. -/
def requestItemContinuation {Dom T Err P : Type} (dec : PubSubIqDecoder Dom T Err)
    (result : IqResult Dom P) (s : Completion Dom (ItemResult T Err P)) :
    Completion Dom (ItemResult T Err P) :=
  let s :=
    match result with
    | .element element =>
      let s := s.called (.isPubSubIq element)
      if dec.isPubSubIq element then
        let s := s.called (.pubSubIqParse element)
        match dec.items element with
        | [] => s.reportResult (.success none)
        | item :: _ => s.reportResult (.success (some item))
      else
        let s := s.called (.iqParse element)
        s.reportResult (.error (dec.error element))
    | .packetState error => s.reportResult (.packetState error)
  let s := s.reportFinished
  s.deleteLater

/-- The lambda connected to `QFutureWatcherBase::finished` in `requestItems`
(lines 197-217), run on the state `s` with `result = watcher->result()`. -/
def requestItemsContinuation {Dom T Err P : Type} (dec : PubSubIqDecoder Dom T Err)
    (result : IqResult Dom P) (s : Completion Dom (ItemsResult T Err P)) :
    Completion Dom (ItemsResult T Err P) :=
  let s :=
    match result with
    | .element element =>
      let s := s.called (.isPubSubIq element)
      if dec.isPubSubIq element then
        let s := s.called (.pubSubIqParse element)
        let s := s.reportResult (.success (dec.items element))
        s.reportFinished
      else
        let s := s.called (.iqParse element)
        s.reportResult (.error (dec.error element))
    | .packetState error =>
      let s := s.reportResult (.packetState error)
      s.reportFinished
  s.deleteLater

/-- The transport side of the manager: `requestItemsIq` is the private static
builder of the items request, `sendIq` gives the value the future returned by
`client()->sendIq(...)` holds when it finishes. Both are defined outside the
header, so they are parameters. -/
structure Transport (Iq Dom P : Type) where
  requestItemsIq : String → String → List String → Iq
  sendIq : Iq → IqResult Dom P

/-- `requestItem<T>(jid, nodeName, itemId)` (lines 123-160), observed once the
send future has finished and the connected lambda has run. -/
def requestItem {Iq Dom T Err P : Type} (tr : Transport Iq Dom P)
    (dec : PubSubIqDecoder Dom T Err) (jid nodeName itemId : String) :
    Completion Dom (ItemResult T Err P) :=
  let resultInterface : Completion Dom (ItemResult T Err P) := Completion.pending
  let sendFuture := tr.sendIq (tr.requestItemsIq jid nodeName [itemId])
  requestItemContinuation dec sendFuture resultInterface

/-- `requestItems<T>(jid, nodeName, itemIds)` (lines 187-221), observed once the
send future has finished and the connected lambda has run. -/
def requestItems {Iq Dom T Err P : Type} (tr : Transport Iq Dom P)
    (dec : PubSubIqDecoder Dom T Err) (jid nodeName : String) (itemIds : List String) :
    Completion Dom (ItemsResult T Err P) :=
  let resultInterface : Completion Dom (ItemsResult T Err P) := Completion.pending
  let sendFuture := tr.sendIq (tr.requestItemsIq jid nodeName itemIds)
  requestItemsContinuation dec sendFuture resultInterface

/-- `requestItems<T>(jid, nodeName)` (lines 170-175): all items of the node. -/
def requestAllItems {Iq Dom T Err P : Type} (tr : Transport Iq Dom P)
    (dec : PubSubIqDecoder Dom T Err) (jid nodeName : String) :
    Completion Dom (ItemsResult T Err P) :=
  requestItems tr dec jid nodeName []

/-! ## Publish requests -/

/-- Modelled from the spec: the class `QXmppPubSubPublishOptions`, which the
header only forward-declares. The spec calls it "optional configuration attached
to a publish request affecting node behavior (e.g. access model), not parsed by
this core beyond passthrough" and speaks of "an empty options set"; it is
modelled as the set of option fields, each a variable name with its value. -/
structure QXmppPubSubPublishOptions where
  fields : List (String × String)
  deriving DecidableEq, Repr

/-- The options set without any field. -/
def QXmppPubSubPublishOptions.empty : QXmppPubSubPublishOptions :=
  { fields := [] }

/-- Modelled from the spec: the request class `QXmppPubSubIq<T>`, declared in
`QXmppPubSubIq.h`, reduced to what the header sets on it. It stands for the
outbound request document: recipient (`toJid`, the stanza's `to`), items, query node and the publish options
attached to it. The spec says of the options that their "presence/absence is
additive only", so a request to which no options were attached carries the
options set without fields. -/
structure QXmppPubSubIq (T : Type) where
  toJid : String
  items : List T
  queryNode : String
  publishOptions : QXmppPubSubPublishOptions
  deriving DecidableEq, Repr

namespace QXmppPubSubIq

/-- The default-constructed request `QXmppPubSubIq<T> request;`. -/
def new {T : Type} : QXmppPubSubIq T :=
  { toJid := "", items := [], queryNode := "", publishOptions := QXmppPubSubPublishOptions.empty }

/-- The setter `request.setTo(jid)`. -/
def setTo {T : Type} (request : QXmppPubSubIq T) (jid : String) : QXmppPubSubIq T :=
  { request with toJid := jid }

/-- The setter `request.setItems(items)`. -/
def setItems {T : Type} (request : QXmppPubSubIq T) (items : List T) : QXmppPubSubIq T :=
  { request with items := items }

/-- The setter `request.setQueryNode(nodeName)`. -/
def setQueryNode {T : Type} (request : QXmppPubSubIq T) (nodeName : String) : QXmppPubSubIq T :=
  { request with queryNode := nodeName }

/-- The setter `request.setPublishOptions(publishOptions)`. -/
def setPublishOptions {T : Type} (request : QXmppPubSubIq T)
    (publishOptions : QXmppPubSubPublishOptions) : QXmppPubSubIq T :=
  { request with publishOptions := publishOptions }

end QXmppPubSubIq

/-- The parts of the manager the publish templates rely on and the header does
not define: `jidBare` is `client()->configuration().jidBare()`, `publishItemIq`
is the private `publishItem(QXmppPubSubIqBase &&)` and `publishItemsIq` the
private `publishItems(QXmppPubSubIqBase &&)`; `F` and `G` stand for the futures
they return. -/
structure QXmppPubSubManager (T F G : Type) where
  jidBare : String
  publishItemIq : QXmppPubSubIq T → F
  publishItemsIq : QXmppPubSubIq T → G

namespace QXmppPubSubManager

/-- `publishItem<T>(jid, nodeName, item)` (lines 234-244). -/
def publishItem {T F G : Type} (m : QXmppPubSubManager T F G)
    (jid nodeName : String) (item : T) : F :=
  let request : QXmppPubSubIq T := QXmppPubSubIq.new
  let request := request.setTo jid
  let request := request.setItems [item]
  let request := request.setQueryNode nodeName
  m.publishItemIq request

/-- `publishItem<T>(jid, nodeName, item, publishOptions)` (lines 258-270). -/
def publishItemWithOptions {T F G : Type} (m : QXmppPubSubManager T F G)
    (jid nodeName : String) (item : T) (publishOptions : QXmppPubSubPublishOptions) : F :=
  let request : QXmppPubSubIq T := QXmppPubSubIq.new
  let request := request.setTo jid
  let request := request.setItems [item]
  let request := request.setQueryNode nodeName
  let request := request.setPublishOptions publishOptions
  m.publishItemIq request

/-- `publishItems<T>(jid, nodeName, items)` (lines 280-290). -/
def publishItems {T F G : Type} (m : QXmppPubSubManager T F G)
    (jid nodeName : String) (items : List T) : G :=
  let request : QXmppPubSubIq T := QXmppPubSubIq.new
  let request := request.setTo jid
  let request := request.setItems items
  let request := request.setQueryNode nodeName
  m.publishItemsIq request

/-- `publishItems<T>(jid, nodeName, items, publishOptions)` (lines 301-313). -/
def publishItemsWithOptions {T F G : Type} (m : QXmppPubSubManager T F G)
    (jid nodeName : String) (items : List T) (publishOptions : QXmppPubSubPublishOptions) : G :=
  let request : QXmppPubSubIq T := QXmppPubSubIq.new
  let request := request.setTo jid
  let request := request.setItems items
  let request := request.setQueryNode nodeName
  let request := request.setPublishOptions publishOptions
  m.publishItemsIq request

/-- `publishPepItem<T>(nodeName, item, publishOptions)` (lines 323-327). -/
def publishPepItemWithOptions {T F G : Type} (m : QXmppPubSubManager T F G)
    (nodeName : String) (item : T) (publishOptions : QXmppPubSubPublishOptions) : F :=
  m.publishItemWithOptions m.jidBare nodeName item publishOptions

/-- `publishPepItem<T>(nodeName, item)` (lines 336-340). -/
def publishPepItem {T F G : Type} (m : QXmppPubSubManager T F G)
    (nodeName : String) (item : T) : F :=
  m.publishItem m.jidBare nodeName item

/-- `publishPepItems<T>(nodeName, items, publishOptions)` (lines 351-355). -/
def publishPepItemsWithOptions {T F G : Type} (m : QXmppPubSubManager T F G)
    (nodeName : String) (items : List T) (publishOptions : QXmppPubSubPublishOptions) : G :=
  m.publishItemsWithOptions m.jidBare nodeName items publishOptions

/-- `publishPepItems<T>(nodeName, items)` (lines 364-368). -/
def publishPepItems {T F G : Type} (m : QXmppPubSubManager T F G)
    (nodeName : String) (items : List T) : G :=
  m.publishItems m.jidBare nodeName items

/-- A manager of account `jidBare` whose private senders hand back the request
they are given, so that a publish operation returns the request it built. -/
def observing {T : Type} (jidBare : String) :
    QXmppPubSubManager T (QXmppPubSubIq T) (QXmppPubSubIq T) :=
  { jidBare := jidBare, publishItemIq := fun request => request,
    publishItemsIq := fun request => request }

end QXmppPubSubManager

/-! ## Concrete inputs -/

namespace Sample

/-- A stand-in for an inbound `QDomElement`: whether it holds a pub-sub
container, the item payloads in it, and the error condition it carries. -/
structure Element where
  pubsub : Bool
  items : List Nat
  condition : String
  deriving DecidableEq, Repr

/-- A stand-in for `QXmpp::PacketState`. -/
inductive PacketState where
  | disconnected
  | notSent
  deriving DecidableEq, Repr

/-- The decoder that reads a sample element field by field. -/
def decoder : PubSubIqDecoder Element Nat String :=
  { isPubSubIq := fun e => e.pubsub, items := fun e => e.items, error := fun e => e.condition }

/-- An IQ of type error without pub-sub container. -/
def errorElement : Element :=
  { pubsub := false, items := [], condition := "item-not-found" }

/-- A pub-sub response of a node without items. -/
def emptyNodeElement : Element :=
  { pubsub := true, items := [], condition := "" }

/-- A pub-sub response with three items. -/
def threeItemsElement : Element :=
  { pubsub := true, items := [7, 8, 9], condition := "" }

/-- A transport whose send future finishes with `outcome` for every request. -/
def transport (outcome : IqResult Element PacketState) :
    Transport (String × String × List String) Element PacketState :=
  { requestItemsIq := fun jid nodeName itemIds => (jid, nodeName, itemIds),
    sendIq := fun _ => outcome }

end Sample

/-! ## Shape of the two continuations -/

section Lemmas

variable {Dom T Err P : Type}

/-- The interface left by the `requestItem` lambda on a pending request. -/
theorem requestItemContinuation_interface (dec : PubSubIqDecoder Dom T Err)
    (result : IqResult Dom P) :
    (requestItemContinuation dec result Completion.pending).resultInterface =
      { results :=
          [match result with
           | .element element =>
             if dec.isPubSubIq element then .success (dec.items element).head?
             else .error (dec.error element)
           | .packetState error => .packetState error],
        finished := true } := by
  cases result with
  | element element =>
    cases h : dec.isPubSubIq element <;> cases hi : dec.items element <;>
      simp [requestItemContinuation, Completion.pending, Completion.called,
        Completion.reportResult, Completion.reportFinished, Completion.deleteLater,
        QFutureInterface.started, QFutureInterface.reportResult,
        QFutureInterface.reportFinished, h, hi]
  | packetState error =>
    simp [requestItemContinuation, Completion.pending, Completion.reportResult,
      Completion.reportFinished, Completion.deleteLater, QFutureInterface.started,
      QFutureInterface.reportResult, QFutureInterface.reportFinished]

/-- The interface left by the `requestItems` lambda on a pending request: the
finished flag is set on every path but the one of an element that is not a
pub-sub IQ. -/
theorem requestItemsContinuation_interface (dec : PubSubIqDecoder Dom T Err)
    (result : IqResult Dom P) :
    (requestItemsContinuation dec result Completion.pending).resultInterface =
      match result with
      | .element element =>
        if dec.isPubSubIq element then
          { results := [.success (dec.items element)], finished := true }
        else
          { results := [.error (dec.error element)], finished := false }
      | .packetState error => { results := [.packetState error], finished := true } := by
  cases result with
  | element element =>
    cases h : dec.isPubSubIq element <;>
      simp [requestItemsContinuation, Completion.pending, Completion.called,
        Completion.reportResult, Completion.reportFinished, Completion.deleteLater,
        QFutureInterface.started, QFutureInterface.reportResult,
        QFutureInterface.reportFinished, h]
  | packetState error =>
    simp [requestItemsContinuation, Completion.pending, Completion.reportResult,
      Completion.reportFinished, Completion.deleteLater, QFutureInterface.started,
      QFutureInterface.reportResult, QFutureInterface.reportFinished]

/-- Both lambdas end with `watcher->deleteLater()`. -/
theorem continuation_deletes_watcher (dec : PubSubIqDecoder Dom T Err)
    (result : IqResult Dom P) (s : Completion Dom (ItemResult T Err P))
    (s' : Completion Dom (ItemsResult T Err P)) :
    (requestItemContinuation dec result s).watcherDeleted = true ∧
      (requestItemsContinuation dec result s').watcherDeleted = true := by
  constructor <;> rfl

end Lemmas

/-! ## Completion of item requests -/

section Requests

variable {Iq Dom T Err P : Type}

/-- C1, evaluated on the code: when the send future of `requestItems` finishes
with an element that is not a pub-sub IQ (here an IQ of type error), the lambda
reports the parsed error and deletes the watcher, but the future interface is
left not finished. -/
theorem requestItems_error_element_not_finished :
    requestItems (Sample.transport (.element Sample.errorElement)) Sample.decoder
        "pubsub.example.org" "urn:xmpp:avatar:data" ["a1"] =
      { resultInterface :=
          { results := [ItemsResult.error "item-not-found"], finished := false },
        decoderCalls := [.isPubSubIq Sample.errorElement, .iqParse Sample.errorElement],
        watcherDeleted := true } := by
  rfl

/-- C2: whatever the send future of `requestItem` finishes with (a packet
state, an element that is a pub-sub IQ, an element that is not), and whatever
state the lambda starts from, the future interface is marked finished when the
lambda returns; so is the one of every `requestItem` call whose send future
finishes. -/
theorem requestItem_always_finished (dec : PubSubIqDecoder Dom T Err)
    (result : IqResult Dom P) (s : Completion Dom (ItemResult T Err P))
    (tr : Transport Iq Dom P) (jid nodeName itemId : String) :
    (requestItemContinuation dec result s).resultInterface.finished = true ∧
      (requestItem tr dec jid nodeName itemId).resultInterface.finished = true := by
  constructor <;> rfl

/-- C3: for every outcome of the send future, the lambda of `requestItem` and
the lambda of `requestItems` each report exactly one value to the pending
interface, and that value is a success, a stanza error or a packet state. -/
theorem continuation_reports_exactly_one (dec : PubSubIqDecoder Dom T Err)
    (result : IqResult Dom P) :
    (∃ r : ItemResult T Err P,
        (requestItemContinuation dec result Completion.pending).resultInterface.results = [r] ∧
        ((∃ item, r = .success item) ∨ (∃ e, r = .error e) ∨ (∃ p, r = .packetState p))) ∧
    (∃ r : ItemsResult T Err P,
        (requestItemsContinuation dec result Completion.pending).resultInterface.results = [r] ∧
        ((∃ items, r = .success items) ∨ (∃ e, r = .error e) ∨ (∃ p, r = .packetState p))) := by
  rw [requestItemContinuation_interface, requestItemsContinuation_interface]
  cases result with
  | element element =>
    cases h : dec.isPubSubIq element
    · exact ⟨⟨.error (dec.error element), by simp [h], Or.inr (Or.inl ⟨_, rfl⟩)⟩,
        ⟨.error (dec.error element), by simp [h], Or.inr (Or.inl ⟨_, rfl⟩)⟩⟩
    · exact ⟨⟨.success (dec.items element).head?, by simp [h], Or.inl ⟨_, rfl⟩⟩,
        ⟨.success (dec.items element), by simp [h], Or.inl ⟨_, rfl⟩⟩⟩
  | packetState error =>
    exact ⟨⟨_, rfl, Or.inr (Or.inr ⟨_, rfl⟩)⟩, ⟨_, rfl, Or.inr (Or.inr ⟨_, rfl⟩)⟩⟩

/-- C4: when the send future finishes with packet state `r`, the lambda of
`requestItem` and the lambda of `requestItems` each report exactly the packet
state `r` (no success, no stanza error) and make no call into the stanza
classes. -/
theorem continuation_packetState (dec : PubSubIqDecoder Dom T Err) (r : P) :
    (requestItemContinuation dec (IqResult.packetState r)
        (Completion.pending : Completion Dom (ItemResult T Err P))).resultInterface.results
        = [.packetState r] ∧
    (requestItemContinuation dec (IqResult.packetState r)
        (Completion.pending : Completion Dom (ItemResult T Err P))).decoderCalls = [] ∧
    (requestItemsContinuation dec (IqResult.packetState r)
        (Completion.pending : Completion Dom (ItemsResult T Err P))).resultInterface.results
        = [.packetState r] ∧
    (requestItemsContinuation dec (IqResult.packetState r)
        (Completion.pending : Completion Dom (ItemsResult T Err P))).decoderCalls = [] := by
  refine ⟨rfl, rfl, rfl, rfl⟩

/-- C5: an element for which `isPubSubIq` is false makes the lambda of
`requestItem` and the lambda of `requestItems` report exactly the stanza error
`iq.error()` parsed from that element, unchanged (so neither a success nor a
packet state); an element for which `isPubSubIq` is true is never reported as a
stanza error. -/
theorem continuation_error_iff_not_pubsub (dec : PubSubIqDecoder Dom T Err) (element : Dom) :
    (dec.isPubSubIq element = false →
      (requestItemContinuation dec (IqResult.element element)
          (Completion.pending : Completion Dom (ItemResult T Err P))).resultInterface.results
          = [.error (dec.error element)] ∧
      (requestItemsContinuation dec (IqResult.element element)
          (Completion.pending : Completion Dom (ItemsResult T Err P))).resultInterface.results
          = [.error (dec.error element)]) ∧
    (dec.isPubSubIq element = true →
      ∀ e : Err,
        ItemResult.error e ∉ (requestItemContinuation dec (IqResult.element element)
          (Completion.pending : Completion Dom (ItemResult T Err P))).resultInterface.results ∧
        ItemsResult.error e ∉ (requestItemsContinuation dec (IqResult.element element)
          (Completion.pending : Completion Dom (ItemsResult T Err P))).resultInterface.results) := by
  rw [requestItemContinuation_interface, requestItemsContinuation_interface]
  constructor
  · intro h
    simp [h]
  · intro h e
    simp [h]

/-- C5 at two concrete elements: an IQ of type error, and a pub-sub response. -/
theorem continuation_error_iff_not_pubsub_witness :
    (Sample.decoder.isPubSubIq Sample.errorElement = false ∧
      (requestItemContinuation Sample.decoder (IqResult.element Sample.errorElement)
          (Completion.pending :
            Completion Sample.Element (ItemResult Nat String Sample.PacketState))
        ).resultInterface.results = [.error "item-not-found"] ∧
      (requestItemsContinuation Sample.decoder (IqResult.element Sample.errorElement)
          (Completion.pending :
            Completion Sample.Element (ItemsResult Nat String Sample.PacketState))
        ).resultInterface.results = [.error "item-not-found"]) ∧
    (Sample.decoder.isPubSubIq Sample.threeItemsElement = true ∧
      ItemResult.error "item-not-found" ∉
        (requestItemContinuation Sample.decoder (IqResult.element Sample.threeItemsElement)
          (Completion.pending :
            Completion Sample.Element (ItemResult Nat String Sample.PacketState))
        ).resultInterface.results) :=
  ⟨⟨rfl, (continuation_error_iff_not_pubsub Sample.decoder Sample.errorElement).1 rfl⟩,
    ⟨rfl, ((continuation_error_iff_not_pubsub Sample.decoder Sample.threeItemsElement).2 rfl
      "item-not-found").1⟩⟩

/-- C6: for an element that is a pub-sub IQ, the lambda of `requestItem` reports
a success holding the first of the items decoded from the element, or a success
holding no item when none was decoded (never a stanza error); that payload is
the head of the item list the lambda of `requestItems` reports for the same
element. -/
theorem requestItem_reports_first_item (dec : PubSubIqDecoder Dom T Err) (element : Dom)
    (h : dec.isPubSubIq element = true) :
    (requestItemContinuation dec (IqResult.element element)
        (Completion.pending : Completion Dom (ItemResult T Err P))).resultInterface.results
        = [.success (dec.items element).head?] ∧
    (dec.items element = [] →
      (requestItemContinuation dec (IqResult.element element)
        (Completion.pending : Completion Dom (ItemResult T Err P))).resultInterface.results
        = [.success none]) ∧
    (∃ items : List T,
      (requestItemsContinuation dec (IqResult.element element)
        (Completion.pending : Completion Dom (ItemsResult T Err P))).resultInterface.results
        = [.success items] ∧
      (requestItemContinuation dec (IqResult.element element)
        (Completion.pending : Completion Dom (ItemResult T Err P))).resultInterface.results
        = [.success items.head?]) := by
  rw [requestItemContinuation_interface, requestItemsContinuation_interface]
  refine ⟨by simp [h], ?_, dec.items element, by simp [h], by simp [h]⟩
  intro hi
  simp [h, hi]

/-- C6 at the response of a node without items: `requestItem` reports a success
without item. -/
theorem requestItem_reports_first_item_witness :
    Sample.decoder.isPubSubIq Sample.emptyNodeElement = true ∧
    Sample.decoder.items Sample.emptyNodeElement = [] ∧
    (requestItemContinuation Sample.decoder (IqResult.element Sample.emptyNodeElement)
        (Completion.pending :
          Completion Sample.Element (ItemResult Nat String Sample.PacketState))
      ).resultInterface.results = [.success none] :=
  ⟨rfl, rfl, (requestItem_reports_first_item Sample.decoder Sample.emptyNodeElement rfl).2.1 rfl⟩

/-- C7: for an element that is a pub-sub IQ, the lambda of `requestItems`
reports a success holding exactly the item list decoded from the element (same
elements, same order), also when that list is empty, and marks the future
finished. -/
theorem requestItems_reports_all_items (dec : PubSubIqDecoder Dom T Err) (element : Dom)
    (h : dec.isPubSubIq element = true) :
    (requestItemsContinuation dec (IqResult.element element)
        (Completion.pending : Completion Dom (ItemsResult T Err P))).resultInterface
      = { results := [.success (dec.items element)], finished := true } := by
  rw [requestItemsContinuation_interface]
  simp [h]

/-- C7 at a response with three items and at the response of a node without
items. -/
theorem requestItems_reports_all_items_witness :
    (Sample.decoder.isPubSubIq Sample.threeItemsElement = true ∧
      (requestItemsContinuation Sample.decoder (IqResult.element Sample.threeItemsElement)
          (Completion.pending :
            Completion Sample.Element (ItemsResult Nat String Sample.PacketState))
        ).resultInterface = { results := [.success [7, 8, 9]], finished := true }) ∧
    (Sample.decoder.isPubSubIq Sample.emptyNodeElement = true ∧
      (requestItemsContinuation Sample.decoder (IqResult.element Sample.emptyNodeElement)
          (Completion.pending :
            Completion Sample.Element (ItemsResult Nat String Sample.PacketState))
        ).resultInterface = { results := [.success []], finished := true }) :=
  ⟨⟨rfl, requestItems_reports_all_items Sample.decoder Sample.threeItemsElement rfl⟩,
    ⟨rfl, requestItems_reports_all_items Sample.decoder Sample.emptyNodeElement rfl⟩⟩

end Requests

/-! ## Publish requests -/

section Publish

open QXmppPubSubManager

variable {T F G : Type}

/-- C8: for every jid, node name and item, `publishItem` without options and
`publishItem` with the empty options set hand the same request to the private
sender; observed directly, the two requests built are equal. -/
theorem publishItem_empty_options (m : QXmppPubSubManager T F G) (jid nodeName : String)
    (item : T) (account : String) :
    m.publishItem jid nodeName item
      = m.publishItemWithOptions jid nodeName item QXmppPubSubPublishOptions.empty ∧
    (observing account).publishItem jid nodeName item
      = (observing account).publishItemWithOptions jid nodeName item
          QXmppPubSubPublishOptions.empty := by
  constructor <;> rfl

/-- C9: the four PEP publish operations return what the generic operation of
the same shape returns for the account's bare JID, with node name, items and
options passed on unchanged (and no options where none were given). -/
theorem publishPep_delegates (m : QXmppPubSubManager T F G) (nodeName : String) (item : T)
    (items : List T) (publishOptions : QXmppPubSubPublishOptions) :
    m.publishPepItemWithOptions nodeName item publishOptions
      = m.publishItemWithOptions m.jidBare nodeName item publishOptions ∧
    m.publishPepItem nodeName item = m.publishItem m.jidBare nodeName item ∧
    m.publishPepItemsWithOptions nodeName items publishOptions
      = m.publishItemsWithOptions m.jidBare nodeName items publishOptions ∧
    m.publishPepItems nodeName items = m.publishItems m.jidBare nodeName items := by
  refine ⟨rfl, rfl, rfl, rfl⟩

/-- C10 refuted as stated: with the access model given as publish option, the
request built by the `publishItem` overload with options is not the request
built by `publishItem` without options. -/
theorem publishItemWithOptions_differs :
    (observing "juliet@capulet.lit").publishItemWithOptions "pubsub.shakespeare.lit"
        "princely_musings" (1 : Nat) { fields := [("pubsub#access_model", "open")] }
      ≠ (observing "juliet@capulet.lit").publishItem "pubsub.shakespeare.lit"
        "princely_musings" (1 : Nat) := by
  decide

/-- C10 as amended: the `publishItem` overload with options hands to the private
sender the request that `publishItem` without options builds, with the given
publish options set on it; recipient, item and query node are those of the
request without options, and the options it carries are exactly the given ones. -/
theorem publishItemWithOptions_sets_options (m : QXmppPubSubManager T F G)
    (jid nodeName : String) (item : T) (publishOptions : QXmppPubSubPublishOptions) :
    m.publishItemWithOptions jid nodeName item publishOptions
      = m.publishItemIq
          (((observing m.jidBare).publishItem jid nodeName item).setPublishOptions
            publishOptions) ∧
    ((observing m.jidBare).publishItemWithOptions jid nodeName item publishOptions).toJid
      = ((observing m.jidBare).publishItem jid nodeName item).toJid ∧
    ((observing m.jidBare).publishItemWithOptions jid nodeName item publishOptions).items
      = ((observing m.jidBare).publishItem jid nodeName item).items ∧
    ((observing m.jidBare).publishItemWithOptions jid nodeName item publishOptions).queryNode
      = ((observing m.jidBare).publishItem jid nodeName item).queryNode ∧
    ((observing m.jidBare).publishItemWithOptions jid nodeName item
        publishOptions).publishOptions = publishOptions := by
  refine ⟨rfl, rfl, rfl, rfl, rfl⟩

end Publish

end QXmppPubSub
